import Mathlib

set_option maxRecDepth 100000

/-!
Verification of the truecoach Go API client (`truecoach.go`).

The Go code is shallowly embedded. A JSON document is a value of the
inductive type `Json`, where a number carries the exact rational value
denoted by the wire literal. Go `float64` parsing is modelled over `ℚ`
by explicit rounding to the nearest representable binary64 value (round to
nearest, ties to even, 53-bit significand, the subnormal grid below
2^-1022, and a range error past the largest finite value). The package's
`encoding/json` decoding of its response structs is translated field by
field, and each HTTP method of `Client` is a function of an abstract
transport that returns its Go result together with the list of HTTP
requests issued during the call.
-/

/-- A parsed JSON document. `num` carries the exact rational value denoted
by the number literal on the wire. -/
inductive Json where
  | null
  | bool (b : Bool)
  | num (q : ℚ)
  | str (s : String)
  | arr (elems : List Json)
  | obj (fields : List (String × Json))

/-- Floor of log₂ on naturals, driven by fuel so that it is structurally
recursive (any fuel ≥ n gives the exact answer). -/
def natLog2Aux : ℕ → ℕ → ℕ
  | 0, _ => 0
  | fuel + 1, n => if n ≤ 1 then 0 else natLog2Aux fuel (n / 2) + 1

/-- Floor of log₂ on naturals (0 for inputs below 2). -/
def natLog2 (n : ℕ) : ℕ := natLog2Aux n n

/-- ⌊log₂ a⌋ for a positive rational `a`: the exponent of the binade
containing `a`. For `a < 1` it is `-⌈log₂ a⁻¹⌉`. -/
def qfloorLog2 (a : ℚ) : ℤ :=
  if 1 ≤ a then (natLog2 ⌊a⌋.toNat : ℤ)
  else
    let b := a⁻¹
    let L := natLog2 ⌊b⌋.toNat
    if b ≤ (2 ^ L : ℚ) then -(L : ℤ) else -((L : ℤ) + 1)

/-- Round a rational to the nearest integer, ties to the even integer: the
rounding used both when parsing a decimal literal to the nearest binary64
value and by Go's fixed-precision decimal formatting. -/
def rne (x : ℚ) : ℤ :=
  if x - ⌊x⌋ < 1 / 2 then ⌊x⌋
  else if 1 / 2 < x - ⌊x⌋ then ⌊x⌋ + 1
  else if ⌊x⌋ % 2 = 0 then ⌊x⌋ else ⌊x⌋ + 1

/-- 2^e as a rational, computed through the natural power (which the
kernel evaluates natively, unlike an iterated rational product). -/
def qpow2 : ℤ → ℚ
  | .ofNat n => ((2 ^ n : ℕ) : ℚ)
  | .negSucc n => mkRat 1 (2 ^ (n + 1))

/-- The binary64 value nearest to `q` (round to nearest, ties to even,
the exponent clamped below so that magnitudes under 2^-1022 round on the
subnormal grid 2^-1074 exactly as `strconv.ParseFloat` does), as an exact
rational. Go's `encoding/json` parses every JSON number appearing in an
`interface` value into such a float64. The exponent is unbounded above: a
value whose magnitude rounds past `maxFloat64` overflows, and every
decoder below reports Go's range error in that case instead of using this
value. -/
def toFloat64 (q : ℚ) : ℚ :=
  if q = 0 then 0
  else
    let p : ℚ := qpow2 (max (qfloorLog2 |q| - 52) (-1074))
    let m : ℤ := rne (|q| / p)
    (if q < 0 then -1 else 1) * (m : ℚ) * p

/-- `strconv.FormatFloat(v, 'f', 0, 64)`: the exact binary64 value is
printed in decimal with no fractional digits, rounding to nearest with
ties to even; a negative value keeps its minus sign. -/
def formatFloat_f0 (v : ℚ) : String :=
  if v < 0 then "-" ++ toString (rne (-v)) else toString (rne v)

/-- The largest finite binary64 value, (2^53 - 1) · 2^971 = 2^1024 -
2^971 (about 1.8 · 10^308). A decimal literal whose rounded value exceeds
it in magnitude makes `strconv.ParseFloat` — and hence `encoding/json` —
report a range error: the IEEE-754 overflow rule compares the value
rounded as if the exponent were unbounded against this bound. -/
def maxFloat64 : ℚ := ((2 ^ 1024 - 2 ^ 971 : ℕ) : ℚ)

/-- The string Go's `%T` verb prints for the dynamic type that
`encoding/json` assigns to a value of each JSON kind when decoding into an
empty interface (`nil` interfaces print as `<nil>`). -/
def goTypeName : Json → String
  | .null => "<nil>"
  | .bool _ => "bool"
  | .num _ => "float64"
  | .str _ => "string"
  | .arr _ => "[]interface \x7b\x7d"
  | .obj _ => "map[string]interface \x7b\x7d"

/-- `type ClientID string`: the user/client ID, always held as a string in
memory even when the API returns it as a JSON number. -/
abbrev ClientID := String

/-- `(*ClientID).UnmarshalJSON`: the body bytes are first parsed into an
empty interface, where a number literal goes through `strconv.ParseFloat`;
a literal whose rounded value overflows binary64 makes that initial parse
fail with a range error (Go's message also repeats the wire digits, which
this model does not keep). Otherwise a string is taken as-is, a number is
formatted with `strconv.FormatFloat(v, 'f', 0, 64)`, and every other kind
is rejected with an error naming the dynamic type via `%T`. Malformed
input bytes fail in the initial parse and are outside this model, whose
input is an already-parsed JSON value. -/
def ClientID.UnmarshalJSON : Json → Except String ClientID
  | .str s => .ok s
  | .num q =>
      if maxFloat64 < |toFloat64 q| then
        .error "json: cannot unmarshal number into Go value of type float64"
      else .ok (formatFloat_f0 (toFloat64 q))
  | j => .error ("user_id: expected string or number, got " ++ goTypeName j)

/-- Look a key up in a decoded JSON object. `encoding/json` decodes object
keys in wire order into struct fields, so a later duplicate key overrides
an earlier one; hence the reverse. -/
def objLookup (fields : List (String × Json)) (key : String) : Option Json :=
  fields.reverse.lookup key

/-- Decode an `int` struct field (64-bit `int`): a missing key or JSON
null leaves the zero value; a JSON number goes through
`strconv.ParseInt(s, 10, 64)`, which errors on a fractional value and on
int64 overflow. The model takes an integral wire value to be spelled as a
plain integer literal (`Json.num` does not record the spelling); Go
additionally rejects integral literals spelled with a decimal point or an
exponent. -/
def decInt : Option Json → Except String Int
  | none => .ok 0
  | some .null => .ok 0
  | some (.num q) =>
      if q.den = 1 then
        if -(2 ^ 63) ≤ q.num ∧ q.num < 2 ^ 63 then .ok q.num
        else .error "json: cannot unmarshal out-of-range number into Go value of type int"
      else .error "json: cannot unmarshal fractional number into Go value of type int"
  | some j => .error ("json: cannot unmarshal " ++ goTypeName j ++ " into Go value of type int")

/-- Decode a `string` struct field: a missing key or JSON null leaves the
zero value. -/
def decStr : Option Json → Except String String
  | none => .ok ""
  | some .null => .ok ""
  | some (.str s) => .ok s
  | some j => .error ("json: cannot unmarshal " ++ goTypeName j ++ " into Go value of type string")

/-- Decode a `bool` struct field: a missing key or JSON null leaves the
zero value. -/
def decBool : Option Json → Except String Bool
  | none => .ok false
  | some .null => .ok false
  | some (.bool b) => .ok b
  | some j => .error ("json: cannot unmarshal " ++ goTypeName j ++ " into Go value of type bool")

/-- Decode a `*float64` struct field: a missing key leaves the nil pointer
and JSON null stores one; a number is parsed to the nearest binary64, with
a range error when the rounded value overflows. -/
def decOptFloat : Option Json → Except String (Option ℚ)
  | none => .ok none
  | some .null => .ok none
  | some (.num q) =>
      if maxFloat64 < |toFloat64 q| then
        .error "json: cannot unmarshal number into Go value of type float64"
      else .ok (some (toFloat64 q))
  | some j => .error ("json: cannot unmarshal " ++ goTypeName j ++ " into Go value of type float64")

/-- Decode a `*int` struct field: a missing key leaves the nil pointer and
JSON null stores one; a JSON number must be integral and fit in int64,
with the same `ParseInt` behavior (and the same spelling caveat) as
`decInt`. -/
def decOptInt : Option Json → Except String (Option Int)
  | none => .ok none
  | some .null => .ok none
  | some (.num q) =>
      if q.den = 1 then
        if -(2 ^ 63) ≤ q.num ∧ q.num < 2 ^ 63 then .ok (some q.num)
        else .error "json: cannot unmarshal out-of-range number into Go value of type int"
      else .error "json: cannot unmarshal fractional number into Go value of type int"
  | some j => .error ("json: cannot unmarshal " ++ goTypeName j ++ " into Go value of type int")

/-- Decode a `*string` struct field: a missing key leaves the nil pointer
and JSON null stores one. -/
def decOptStr : Option Json → Except String (Option String)
  | none => .ok none
  | some .null => .ok none
  | some (.str s) => .ok (some s)
  | some j => .error ("json: cannot unmarshal " ++ goTypeName j ++ " into Go value of type string")

/-- Decode a `map[string]interface` struct field: a missing key or JSON
null leaves the nil map. -/
def decMapAny : Option Json → Except String (List (String × Json))
  | none => .ok []
  | some .null => .ok []
  | some (.obj fs) => .ok fs
  | some j => .error ("json: cannot unmarshal " ++ goTypeName j ++ " into Go value of type map")

/-- Decode a `ClientID` struct field: a missing key leaves the zero value;
for a present key (JSON null included) `encoding/json` hands the raw value
to the custom `UnmarshalJSON`. -/
def decClientIDField : Option Json → Except String ClientID
  | none => .ok ""
  | some j => ClientID.UnmarshalJSON j

/-- Decode a nested struct field: a missing key leaves the zero value. -/
def decStructField {α : Type} (zero : α) (dec : Json → Except String α) :
    Option Json → Except String α
  | none => .ok zero
  | some j => dec j

/-- `TokenResponse`: the decoded body of the login endpoint. -/
structure TokenResponse where
  AccessToken : String
  TokenType : String
  UserID : ClientID

/-- The Go zero value of `TokenResponse`. -/
def TokenResponse.zero : TokenResponse := ⟨"", "", ""⟩

/-- `encoding/json` decoding of `TokenResponse` (JSON null leaves the zero
value, as for any struct decoded from an `interface` position). -/
def decodeTokenResponse : Json → Except String TokenResponse
  | .null => .ok TokenResponse.zero
  | .obj fs => do
      let a ← decStr (objLookup fs "access_token")
      let t ← decStr (objLookup fs "token_type")
      let u ← decClientIDField (objLookup fs "user_id")
      pure ⟨a, t, u⟩
  | j => .error ("json: cannot unmarshal " ++ goTypeName j ++
      " into Go value of type truecoach.TokenResponse")

/-- `UserProfile`: the "user" object of the user profile endpoint. -/
structure UserProfile where
  ID : Int
  ClientID : ClientID
  Email : String
  FirstName : String
  LastName : String
  Timezone : String
  Units : String
  Weight : Option ℚ
  Height : Option Int
  ImageID : Option Int

/-- The Go zero value of `UserProfile`. -/
def UserProfile.zero : UserProfile := ⟨0, "", "", "", "", "", "", none, none, none⟩

/-- `encoding/json` decoding of `UserProfile`. -/
def decodeUserProfile : Json → Except String UserProfile
  | .null => .ok UserProfile.zero
  | .obj fs => do
      let i ← decInt (objLookup fs "id")
      let c ← decClientIDField (objLookup fs "client_id")
      let em ← decStr (objLookup fs "email")
      let fn ← decStr (objLookup fs "first_name")
      let ln ← decStr (objLookup fs "last_name")
      let tz ← decStr (objLookup fs "timezone")
      let un ← decStr (objLookup fs "units")
      let w ← decOptFloat (objLookup fs "weight")
      let h ← decOptInt (objLookup fs "height")
      let im ← decOptInt (objLookup fs "image_id")
      pure ⟨i, c, em, fn, ln, tz, un, w, h, im⟩
  | j => .error ("json: cannot unmarshal " ++ goTypeName j ++
      " into Go value of type truecoach.UserProfile")

/-- `UserProfileResponse`: the envelope of GET /users/\x7buserID\x7d. -/
structure UserProfileResponse where
  User : UserProfile

/-- The Go zero value of `UserProfileResponse`. -/
def UserProfileResponse.zero : UserProfileResponse := ⟨UserProfile.zero⟩

/-- `encoding/json` decoding of `UserProfileResponse`. -/
def decodeUserProfileResponse : Json → Except String UserProfileResponse
  | .null => .ok UserProfileResponse.zero
  | .obj fs => do
      let u ← decStructField UserProfile.zero decodeUserProfile (objLookup fs "user")
      pure ⟨u⟩
  | j => .error ("json: cannot unmarshal " ++ goTypeName j ++
      " into Go value of type truecoach.UserProfileResponse")

/-- `HabitTrackerTracking`: a single habit tracker entry for a day. -/
structure HabitTrackerTracking where
  ID : Int
  Calories : Option ℚ
  Date : String
  Protein : Option ℚ
  Carbs : Option ℚ
  Fat : Option ℚ
  Weight : Option ℚ
  Sleep : Option ℚ
  Steps : Option Int
  Energy : Option ℚ
  Hunger : Option ℚ
  Stress : Option ℚ
  Notes : Option String
  ClientID : Int
  CreatedAt : String
  UpdatedAt : String

/-- The Go zero value of `HabitTrackerTracking`. -/
def HabitTrackerTracking.zero : HabitTrackerTracking :=
  ⟨0, none, "", none, none, none, none, none, none, none, none, none, none, 0, "", ""⟩

/-- `encoding/json` decoding of `HabitTrackerTracking`. -/
def decodeHabitTrackerTracking : Json → Except String HabitTrackerTracking
  | .null => .ok HabitTrackerTracking.zero
  | .obj fs => do
      let i ← decInt (objLookup fs "id")
      let cal ← decOptFloat (objLookup fs "calories")
      let d ← decStr (objLookup fs "date")
      let pro ← decOptFloat (objLookup fs "protein")
      let car ← decOptFloat (objLookup fs "carbs")
      let fat ← decOptFloat (objLookup fs "fat")
      let w ← decOptFloat (objLookup fs "weight")
      let sl ← decOptFloat (objLookup fs "sleep")
      let st ← decOptInt (objLookup fs "steps")
      let en ← decOptFloat (objLookup fs "energy")
      let hu ← decOptFloat (objLookup fs "hunger")
      let sr ← decOptFloat (objLookup fs "stress")
      let no ← decOptStr (objLookup fs "notes")
      let ci ← decInt (objLookup fs "client_id")
      let ca ← decStr (objLookup fs "created_at")
      let ua ← decStr (objLookup fs "updated_at")
      pure ⟨i, cal, d, pro, car, fat, w, sl, st, en, hu, sr, no, ci, ca, ua⟩
  | j => .error ("json: cannot unmarshal " ++ goTypeName j ++
      " into Go value of type truecoach.HabitTrackerTracking")

/-- Decode a `[]HabitTrackerTracking` struct field: a missing key or JSON
null leaves the nil slice. -/
def decTrackings : Option Json → Except String (List HabitTrackerTracking)
  | none => .ok []
  | some .null => .ok []
  | some (.arr xs) => xs.mapM decodeHabitTrackerTracking
  | some j => .error ("json: cannot unmarshal " ++ goTypeName j ++ " into Go value of type slice")

/-- `HabitTrackerResponse`: the inner object of the habit_trackers
endpoint's response envelope. -/
structure HabitTrackerResponse where
  Trackings : List HabitTrackerTracking
  PreviousDuration : List (String × Json)
  NextDuration : List (String × Json)
  CurrentDuration : List (String × Json)
  IsPrevious : Bool

/-- The Go zero value of `HabitTrackerResponse`. -/
def HabitTrackerResponse.zero : HabitTrackerResponse := ⟨[], [], [], [], false⟩

/-- `encoding/json` decoding of `HabitTrackerResponse`. -/
def decodeHabitTrackerResponse : Json → Except String HabitTrackerResponse
  | .null => .ok HabitTrackerResponse.zero
  | .obj fs => do
      let ts ← decTrackings (objLookup fs "trackings")
      let pd ← decMapAny (objLookup fs "previous_duration")
      let nd ← decMapAny (objLookup fs "next_duration")
      let cd ← decMapAny (objLookup fs "current_duration")
      let ip ← decBool (objLookup fs "is_previous")
      pure ⟨ts, pd, nd, cd, ip⟩
  | j => .error ("json: cannot unmarshal " ++ goTypeName j ++
      " into Go value of type truecoach.HabitTrackerResponse")

/-- The anonymous wrapper struct of `GetHabitTrackers`, holding one field
`Response` tagged "response"; decoding it and projecting that field. -/
def decodeHabitTrackerEnvelope : Json → Except String HabitTrackerResponse
  | .null => .ok HabitTrackerResponse.zero
  | .obj fs =>
      decStructField HabitTrackerResponse.zero decodeHabitTrackerResponse (objLookup fs "response")
  | j => .error ("json: cannot unmarshal " ++ goTypeName j ++
      " into Go value of type struct")

/-- An outbound HTTP request as resty assembles it: method, full URL,
headers (client-level then request-level), query parameters, and for the
login call the key-value pairs of the JSON body (written in source order;
Go serializes the map with sorted keys, which permutes but never adds or
drops pairs). -/
structure HttpRequest where
  method : String
  url : String
  headers : List (String × String)
  queryParams : List (String × String)
  body : Option (List (String × String))

/-- An HTTP response delivered by the transport: a status code and the
parsed JSON body. -/
structure HttpResponse where
  statusCode : ℕ
  body : Json

/-- The transport: one attempt either fails (connection, DNS, TLS,
timeout, ...) or delivers a response of any status. -/
abbrev Transport := HttpRequest → Except String HttpResponse

/-- `Client`: holds the resty client's static configuration. -/
structure Client where
  baseURL : String
  headers : List (String × String)

/-- `NewClient`: the fixed base URL and static headers; no network
activity. -/
def NewClient : Client :=
  { baseURL := "https://api.truecoach.co/api",
    headers := [("User-Agent", "okhttp/4.12.0"),
                ("Accept", "application/json"),
                ("Content-Type", "application/json; charset=utf-8"),
                ("Role", "Client"),
                ("Accept-Encoding", "gzip")] }

/-- One resty request execution with `SetResult` under resty's default
configuration (no retries, no error on status): a transport failure is
returned as the Go error; on a 2xx response the JSON body is unmarshalled
into the result object and an unmarshalling failure is returned as the Go
error; a non-2xx response is no Go error and leaves the result object at
its zero value (resty's success test is 199 < code < 300). -/
def restyDo {α : Type} (transport : Transport) (req : HttpRequest)
    (dec : Json → Except String α) (zero : α) : Except String α :=
  match transport req with
  | .error e => .error e
  | .ok resp =>
      if 199 < resp.statusCode ∧ resp.statusCode < 300 then dec resp.body
      else .ok zero

/-- The request `Client.Login` issues: POST /oauth/token with the
grant_type/username/password body. -/
def Client.loginRequest (c : Client) (email password : String) : HttpRequest :=
  { method := "POST",
    url := c.baseURL ++ "/oauth/token",
    headers := c.headers,
    queryParams := [],
    body := some [("grant_type", "password"), ("username", email), ("password", password)] }

/-- `Client.Login`: one POST to the token endpoint, decoding the body into
`TokenResponse`. The second component lists the HTTP requests issued
during the call. -/
def Client.Login (c : Client) (email password : String) (transport : Transport) :
    Except String TokenResponse × List HttpRequest :=
  (restyDo transport (c.loginRequest email password) decodeTokenResponse TokenResponse.zero,
   [c.loginRequest email password])

/-- The request `Client.GetUserProfile` issues: GET /users/\x7buserID\x7d
with the bearer token added to the static headers. -/
def Client.userProfileRequest (c : Client) (authToken userID : String) : HttpRequest :=
  { method := "GET",
    url := c.baseURL ++ "/users/" ++ userID,
    headers := c.headers ++ [("Authorization", "Bearer " ++ authToken)],
    queryParams := [],
    body := none }

/-- `Client.GetUserProfile`: one GET to the per-user resource, decoding
the body into `UserProfileResponse`. -/
def Client.GetUserProfile (c : Client) (authToken userID : String) (transport : Transport) :
    Except String UserProfileResponse × List HttpRequest :=
  (restyDo transport (c.userProfileRequest authToken userID)
     decodeUserProfileResponse UserProfileResponse.zero,
   [c.userProfileRequest authToken userID])

/-- The request `Client.GetHabitTrackers` issues: GET
/clients/\x7bclientID\x7d/habit_trackers?date=... with the bearer token
added to the static headers. -/
def Client.habitTrackersRequest (c : Client) (authToken clientID date : String) : HttpRequest :=
  { method := "GET",
    url := c.baseURL ++ "/clients/" ++ clientID ++ "/habit_trackers",
    headers := c.headers ++ [("Authorization", "Bearer " ++ authToken)],
    queryParams := [("date", date)],
    body := none }

/-- `Client.GetHabitTrackers`: one GET to the habit_trackers endpoint,
decoding the body into the anonymous envelope and returning its inner
`Response` field. -/
def Client.GetHabitTrackers (c : Client) (authToken clientID date : String)
    (transport : Transport) :
    Except String HabitTrackerResponse × List HttpRequest :=
  (restyDo transport (c.habitTrackersRequest authToken clientID date)
     decodeHabitTrackerEnvelope HabitTrackerResponse.zero,
   [c.habitTrackersRequest authToken clientID date])

/-- C4: for every email and password, Login issues exactly one POST to the
token endpoint, and its body holds exactly the three credential pairs
grant_type="password", username=email, password=password and nothing
else. -/
theorem login_request_shape (email password : String) (transport : Transport) :
    (NewClient.Login email password transport).2 =
      [{ method := "POST",
         url := "https://api.truecoach.co/api/oauth/token",
         headers := [("User-Agent", "okhttp/4.12.0"),
                     ("Accept", "application/json"),
                     ("Content-Type", "application/json; charset=utf-8"),
                     ("Role", "Client"),
                     ("Accept-Encoding", "gzip")],
         queryParams := [],
         body := some [("grant_type", "password"),
                       ("username", email),
                       ("password", password)] }] := rfl

/-- C8: both authenticated operations send exactly one request, and the
Authorization header of that request is exactly "Bearer " followed by the
caller's token, unmodified. -/
theorem bearer_header_propagation (token uid cid date : String) (transport : Transport) :
    ((NewClient.GetUserProfile token uid transport).2.map
        (fun r => r.headers.lookup "Authorization")) = [some ("Bearer " ++ token)] ∧
    ((NewClient.GetHabitTrackers token cid date transport).2.map
        (fun r => r.headers.lookup "Authorization")) = [some ("Bearer " ++ token)] := by
  constructor <;> rfl

/-- C9: every operation issues exactly one HTTP request per invocation,
and when the single transport attempt fails the error propagates to the
caller with no second request (the request list still has length one). -/
theorem one_request_per_operation (email password token uid cid date : String)
    (transport : Transport) (e : String) :
    (NewClient.Login email password transport).2.length = 1 ∧
    (NewClient.GetUserProfile token uid transport).2.length = 1 ∧
    (NewClient.GetHabitTrackers token cid date transport).2.length = 1 ∧
    (NewClient.Login email password (fun _ => .error e)).1 = .error e ∧
    (NewClient.GetUserProfile token uid (fun _ => .error e)).1 = .error e ∧
    (NewClient.GetHabitTrackers token cid date (fun _ => .error e)).1 = .error e :=
  ⟨rfl, rfl, rfl, rfl, rfl, rfl⟩

/-- C2 counterexample: a 401 response to Login is not reported as an
error; the call returns the zero-valued token response with no error, so
an operation can return a default-valued result with a nil error and a
non-2xx remote response is not treated as a failure. -/
theorem non2xx_login_returns_zero_value :
    (NewClient.Login "a@b.com" "secret" (fun _ => .ok ⟨401, .obj []⟩)).1 =
      .ok { AccessToken := "", TokenType := "", UserID := "" } := rfl

/-- C2 amended: an operation fails only when the transport itself fails or
a 2xx body fails to decode; a non-2xx response is not reported as a
failure — each of the three operations then returns its zero-valued
result with no error. -/
theorem error_reporting_amended (tr : Transport)
    (email password token uid cid date : String) (resp : HttpResponse)
    (hs : ¬(199 < resp.statusCode ∧ resp.statusCode < 300)) :
    (tr (NewClient.loginRequest email password) = .ok resp →
      (NewClient.Login email password tr).1 = .ok TokenResponse.zero) ∧
    (tr (NewClient.userProfileRequest token uid) = .ok resp →
      (NewClient.GetUserProfile token uid tr).1 = .ok UserProfileResponse.zero) ∧
    (tr (NewClient.habitTrackersRequest token cid date) = .ok resp →
      (NewClient.GetHabitTrackers token cid date tr).1 = .ok HabitTrackerResponse.zero) := by
  refine ⟨fun h => ?_, fun h => ?_, fun h => ?_⟩ <;>
    simp [Client.Login, Client.GetUserProfile, Client.GetHabitTrackers, restyDo, h, hs]

/-- C2 amended, witness: a concrete 404 on Login yields the zero-valued
result with no error. -/
theorem error_reporting_amended_witness :
    (NewClient.Login "a@b.com" "pw" (fun _ => .ok ⟨404, .null⟩)).1 = .ok TokenResponse.zero :=
  (error_reporting_amended (fun _ => .ok ⟨404, .null⟩) "a@b.com" "pw" "t" "1" "7" "d"
      ⟨404, .null⟩ (by decide)).1 rfl

/-- C6: for every body of the form ("response": inner object), the value
GetHabitTrackers returns is the decoded inner object itself, not the outer
envelope. -/
theorem habit_trackers_unwrap_envelope (token cid date : String)
    (fs : List (String × Json)) (hr : HabitTrackerResponse)
    (h : decodeHabitTrackerResponse (.obj fs) = .ok hr) :
    (NewClient.GetHabitTrackers token cid date
        (fun _ => .ok ⟨200, .obj [("response", .obj fs)]⟩)).1 = .ok hr := by
  simp [Client.GetHabitTrackers, restyDo, decodeHabitTrackerEnvelope, objLookup,
        decStructField, List.lookup, h]

/-- C6 witness: a concrete envelope with a trackings list and
is_previous=true decodes to the inner object with those fields directly
accessible. -/
theorem habit_trackers_unwrap_envelope_witness :
    (NewClient.GetHabitTrackers "t" "7" "Feb 1, 2026"
        (fun _ => .ok ⟨200, .obj [("response",
            .obj [("trackings", .arr []), ("is_previous", .bool true)])]⟩)).1 =
      .ok ⟨[], [], [], [], true⟩ :=
  habit_trackers_unwrap_envelope "t" "7" "Feb 1, 2026"
    [("trackings", .arr []), ("is_previous", .bool true)] ⟨[], [], [], [], true⟩ rfl

/-- Rounding to the nearest integer moves a rational by at most one
half. -/
theorem abs_rne_sub_le (x : ℚ) : |(rne x : ℚ) - x| ≤ 1 / 2 := by
  have h0 : (⌊x⌋ : ℚ) ≤ x := Int.floor_le x
  have h1 : x < ⌊x⌋ + 1 := Int.lt_floor_add_one x
  unfold rne
  split_ifs <;> rw [abs_le] <;> constructor <;> push_cast <;> linarith

/-- `rne` sends a nonnegative rational to a nonnegative integer. -/
theorem rne_nonneg (x : ℚ) (hx : 0 ≤ x) : 0 ≤ rne x := by
  have h : (0 : ℤ) ≤ ⌊x⌋ := Int.floor_nonneg.mpr hx
  unfold rne
  split_ifs <;> omega

/-- The scale factor 2^e is positive. -/
theorem qpow2_pos (e : ℤ) : 0 < qpow2 e := by
  cases e with
  | ofNat n =>
      show (0 : ℚ) < ((2 ^ n : ℕ) : ℚ)
      have h : (0 : ℕ) < 2 ^ n := pow_pos (by norm_num) n
      exact_mod_cast h
  | negSucc n =>
      show (0 : ℚ) < mkRat 1 (2 ^ (n + 1))
      rw [Rat.mkRat_eq_div]
      refine div_pos (by norm_num) ?_
      have h : (0 : ℕ) < 2 ^ (n + 1) := pow_pos (by norm_num) (n + 1)
      exact_mod_cast h

/-- The binary64 rounding of a nonnegative rational is nonnegative. -/
theorem toFloat64_nonneg (q : ℚ) (hq : 0 ≤ q) : 0 ≤ toFloat64 q := by
  by_cases h0 : q = 0
  · simp [toFloat64, h0]
  · have hlt : ¬q < 0 := not_lt.mpr hq
    rw [toFloat64, if_neg h0]
    simp only [if_neg hlt]
    generalize hpe : qpow2 (max (qfloorLog2 |q| - 52) (-1074)) = p
    have hp : (0 : ℚ) < p := hpe ▸ qpow2_pos _
    have hm : 0 ≤ rne (|q| / p) := rne_nonneg _ (div_nonneg (abs_nonneg q) hp.le)
    have hc : (0 : ℚ) ≤ (rne (|q| / p) : ℚ) := by exact_mod_cast hm
    calc (0 : ℚ) ≤ (rne (|q| / p) : ℚ) * p := mul_nonneg hc hp.le
    _ = 1 * (rne (|q| / p) : ℚ) * p := by ring

/-- Decoding a JSON number within finite binary64 range succeeds with the
formatted float. -/
theorem UnmarshalJSON_num_inRange (q : ℚ) (h : |toFloat64 q| ≤ maxFloat64) :
    ClientID.UnmarshalJSON (.num q) = .ok (formatFloat_f0 (toFloat64 q)) := by
  show (if maxFloat64 < |toFloat64 q| then
      Except.error "json: cannot unmarshal number into Go value of type float64"
    else Except.ok (formatFloat_f0 (toFloat64 q))) = _
  rw [if_neg (not_lt.mpr h)]

/-- Decoding a nonnegative in-range JSON number through the float64 path
yields the decimal string of the rounded float, a nonnegative integer. -/
theorem UnmarshalJSON_num_eq_round (q : ℚ) (hq : 0 ≤ q)
    (hr : toFloat64 q ≤ maxFloat64) :
    ClientID.UnmarshalJSON (.num q) = .ok (toString (rne (toFloat64 q))) ∧
    0 ≤ rne (toFloat64 q) := by
  have h := toFloat64_nonneg q hq
  constructor
  · rw [UnmarshalJSON_num_inRange q (by rw [abs_of_nonneg h]; exact hr),
      formatFloat_f0, if_neg (not_lt.mpr h)]
  · exact rne_nonneg _ h

/-- C1: decoding the JSON number 12345 and the JSON string "12345" both
yield the textual identifier "12345"; decoding a string always yields the
string itself, and decoding a nonnegative number within finite binary64
range (the only numbers the initial float64 parse accepts) always yields
the plain decimal string of an integer (never a "12345.0"-style
rendering). -/
theorem flexible_id_roundtrip :
    ClientID.UnmarshalJSON (.num 12345) = .ok "12345" ∧
    ClientID.UnmarshalJSON (.str "12345") = .ok "12345" ∧
    (∀ s : String, ClientID.UnmarshalJSON (.str s) = .ok s) ∧
    (∀ q : ℚ, 0 ≤ q → toFloat64 q ≤ maxFloat64 → ∃ k : ℤ, 0 ≤ k ∧
      ClientID.UnmarshalJSON (.num q) = .ok (toString k)) := by
  refine ⟨by with_unfolding_all rfl, rfl, fun s => rfl, fun q hq hr => ?_⟩
  exact ⟨rne (toFloat64 q), (UnmarshalJSON_num_eq_round q hq hr).2,
    (UnmarshalJSON_num_eq_round q hq hr).1⟩

/-- C1 witness: at the concrete number 6, the decoder produces the decimal
string of an integer. -/
theorem flexible_id_roundtrip_witness :
    ∃ k : ℤ, 0 ≤ k ∧ ClientID.UnmarshalJSON (.num 6) = .ok (toString k) :=
  flexible_id_roundtrip.2.2.2 6 (by norm_num) (by with_unfolding_all decide)

/-- C3: decoding any JSON value that is neither a string nor a number (a
boolean, array, object, or null) fails with the decode error naming the
unexpected dynamic type, and produces no identifier value. -/
theorem flexible_id_rejects_other_kinds (j : Json)
    (hs : ∀ s, j ≠ .str s) (hn : ∀ q, j ≠ .num q) :
    ClientID.UnmarshalJSON j =
      .error ("user_id: expected string or number, got " ++ goTypeName j) := by
  cases j with
  | str s => exact absurd rfl (hs s)
  | num q => exact absurd rfl (hn q)
  | null => rfl
  | bool b => rfl
  | arr xs => rfl
  | obj fs => rfl

/-- C3 witness: a concrete JSON boolean is rejected with the error naming
the type bool. -/
theorem flexible_id_rejects_other_kinds_witness :
    ClientID.UnmarshalJSON (.bool true) =
      .error "user_id: expected string or number, got bool" := by
  rw [flexible_id_rejects_other_kinds (.bool true)
    (fun s h => Json.noConfusion h) (fun q h => Json.noConfusion h)]
  rfl

/-- C10: every JSON number goes through a 64-bit float formatted with zero
fractional digits: 12.7 decodes without failing, to "13"; the integer
2^53 + 1 decodes to "9007199254740992", which differs from the wire
digits; a literal beyond float64 range (10^400) fails with the parse's
range error; decoding any number within finite binary64 range succeeds;
and a nonnegative in-range number decodes to the decimal string of an
integer within one half of the parsed float. -/
theorem number_decoding_via_float64 :
    ClientID.UnmarshalJSON (.num (127 / 10)) = .ok "13" ∧
    ClientID.UnmarshalJSON (.num 9007199254740993) = .ok "9007199254740992" ∧
    ("9007199254740992" : String) ≠ "9007199254740993" ∧
    ClientID.UnmarshalJSON (.num ((10 ^ 400 : ℕ) : ℚ)) =
      .error "json: cannot unmarshal number into Go value of type float64" ∧
    (∀ q : ℚ, |toFloat64 q| ≤ maxFloat64 →
      ∃ s : String, ClientID.UnmarshalJSON (.num q) = .ok s) ∧
    (∀ q : ℚ, 0 ≤ q → toFloat64 q ≤ maxFloat64 →
      ∃ k : ℤ, ClientID.UnmarshalJSON (.num q) = .ok (toString k) ∧
        |(k : ℚ) - toFloat64 q| ≤ 1 / 2) := by
  refine ⟨by with_unfolding_all rfl, by with_unfolding_all rfl, by decide,
    by with_unfolding_all rfl,
    fun q hq => ⟨formatFloat_f0 (toFloat64 q), UnmarshalJSON_num_inRange q hq⟩,
    fun q hq hr => ?_⟩
  exact ⟨rne (toFloat64 q), (UnmarshalJSON_num_eq_round q hq hr).1, abs_rne_sub_le _⟩

/-- C10 witness: at the concrete number 25/2 (= 12.5, a tie) the decoder
produces the decimal string of an integer within one half of the float. -/
theorem number_decoding_via_float64_witness :
    ∃ k : ℤ, ClientID.UnmarshalJSON (.num (25 / 2)) = .ok (toString k) ∧
      |(k : ℚ) - toFloat64 (25 / 2)| ≤ 1 / 2 :=
  number_decoding_via_float64.2.2.2.2.2 (25 / 2) (by norm_num)
    (by with_unfolding_all decide)

/-- C5: with a response where user.id = 1 and user.client_id = 77,
GetUserProfile exposes client ID "77" and user ID 1 as two distinct
fields; in general, for every id in int64 range (the ids the int decode
accepts) and every string client_id, the two fields are decoded from their
own wire keys ("id" and "client_id") and never conflated. -/
theorem profile_bridges_user_and_client_ids :
    ((NewClient.GetUserProfile "tok" "1"
        (fun _ => .ok ⟨200,
          .obj [("user", .obj [("id", .num 1), ("client_id", .num 77)])]⟩)).1 =
      .ok ⟨⟨1, "77", "", "", "", "", "", none, none, none⟩⟩) ∧
    (∀ n : ℤ, -(2 ^ 63) ≤ n → n < 2 ^ 63 → ∀ m : String,
      decodeUserProfile (.obj [("id", .num (n : ℚ)), ("client_id", .str m)]) =
        .ok ⟨n, m, "", "", "", "", "", none, none, none⟩) := by
  constructor
  · with_unfolding_all rfl
  · intro n h1 h2 m
    norm_num at h1 h2
    simp [decodeUserProfile, objLookup, List.lookup, decInt, decClientIDField,
      ClientID.UnmarshalJSON, decStr, decOptFloat, decOptInt, h1, h2]
    rfl

/-- C5 witness: the general key bridging at the concrete id 5 and
client_id "x". -/
theorem profile_bridges_user_and_client_ids_witness :
    decodeUserProfile (.obj [("id", .num ((5 : ℤ) : ℚ)), ("client_id", .str "x")]) =
      .ok ⟨5, "x", "", "", "", "", "", none, none, none⟩ :=
  profile_bridges_user_and_client_ids.2 5 (by norm_num) (by norm_num) "x"

/-- Key lookup distributes over list concatenation, preferring the left
part. -/
theorem lookup_append {α β : Type} [BEq α] (l1 l2 : List (α × β)) (k : α) :
    (l1 ++ l2).lookup k = ((l1.lookup k).or (l2.lookup k)) := by
  induction l1 with
  | nil => simp [List.lookup]
  | cons x t ih =>
      cases x with
      | mk a b =>
          simp only [List.cons_append, List.lookup]
          split <;> simp [ih]

/-- A three-state optional wire field: the key absent, the key set to JSON
null, or the key set to a present value. -/
def optField (key : String) : Option (Option Json) → List (String × Json)
  | none => []
  | some none => [(key, .null)]
  | some (some j) => [(key, j)]

/-- The value an object lookup sees for a three-state optional field. -/
def optJson : Option (Option Json) → Option Json
  | none => none
  | some none => some .null
  | some (some j) => some j

/-- An optional field chunk has at most one entry, so reversal fixes
it. -/
theorem optField_reverse (k : String) (v : Option (Option Json)) :
    (optField k v).reverse = optField k v := by
  cases v with
  | none => rfl
  | some w => cases w <;> rfl

/-- Looking up an optional field chunk under its own key. -/
theorem lookup_optField_self (k : String) (v : Option (Option Json)) :
    (optField k v).lookup k = optJson v := by
  cases v with
  | none => rfl
  | some w => cases w <;> simp [optField, optJson, List.lookup]

/-- Looking up an optional field chunk under a different key misses. -/
theorem lookup_optField_ne (k k' : String) (h : (k == k') = false)
    (v : Option (Option Json)) :
    (optField k' v).lookup k = none := by
  cases v with
  | none => rfl
  | some w => cases w <;> simp [optField, List.lookup, h]

/-- A `*float64` field of a three-state optional ℚ value whose present
value is within binary64 range decodes without error: an absent key and a
null both yield the nil pointer, a present wire value yields its binary64
rounding. -/
theorem decOptFloat_optJson (v : Option (Option ℚ))
    (hv : ∀ x, v = some (some x) → |toFloat64 x| ≤ maxFloat64) :
    decOptFloat (optJson (v.map (Option.map Json.num))) = .ok (v.join.map toFloat64) := by
  cases v with
  | none => rfl
  | some w =>
      cases w with
      | none => rfl
      | some x => simp [optJson, decOptFloat, not_lt.mpr (hv x rfl)]

/-- A `*int` field of a three-state optional ℤ value whose present value
is within int64 range decodes without error to the corresponding pointer
state, exactly. -/
theorem decOptInt_optJson (v : Option (Option ℤ))
    (hv : ∀ z, v = some (some z) → -(2 ^ 63) ≤ z ∧ z < 2 ^ 63) :
    decOptInt (optJson (v.map (Option.map fun z : ℤ => Json.num (z : ℚ)))) = .ok v.join := by
  cases v with
  | none => rfl
  | some w =>
      cases w with
      | none => rfl
      | some z =>
          have h := hv z rfl
          norm_num at h
          simp [optJson, decOptInt, h.1, h.2]

/-- A `*string` field of a three-state optional string value decodes
without error to the corresponding pointer state, exactly. -/
theorem decOptStr_optJson (v : Option (Option String)) :
    decOptStr (optJson (v.map (Option.map Json.str))) = .ok v.join := by
  cases v with
  | none => rfl
  | some w => cases w <;> rfl

/-- An `int` field holding an integer wire number in int64 range decodes
to it exactly. -/
theorem decInt_intCast (n : ℤ) (h1 : -(2 ^ 63) ≤ n) (h2 : n < 2 ^ 63) :
    decInt (some (.num (n : ℚ))) = .ok n := by
  norm_num at h1 h2
  simp [decInt, h1, h2]

/-- The wire object of a habit tracker entry with the given required
fields and any subset of the optional metrics present: each optional
argument is none for an absent key, some none for a JSON null, and
some (some v) for a present value v. -/
def mkTrackingObj (id : ℤ) (date : String) (clientID : ℤ) (createdAt updatedAt : String)
    (calories protein carbs fat weight sleep energy hunger stress : Option (Option ℚ))
    (steps : Option (Option ℤ)) (notes : Option (Option String)) : List (String × Json) :=
  [("id", .num (id : ℚ)), ("date", .str date), ("client_id", .num (clientID : ℚ)),
   ("created_at", .str createdAt), ("updated_at", .str updatedAt)]
  ++ optField "calories" (calories.map (Option.map Json.num))
  ++ optField "protein" (protein.map (Option.map Json.num))
  ++ optField "carbs" (carbs.map (Option.map Json.num))
  ++ optField "fat" (fat.map (Option.map Json.num))
  ++ optField "weight" (weight.map (Option.map Json.num))
  ++ optField "sleep" (sleep.map (Option.map Json.num))
  ++ optField "energy" (energy.map (Option.map Json.num))
  ++ optField "hunger" (hunger.map (Option.map Json.num))
  ++ optField "stress" (stress.map (Option.map Json.num))
  ++ optField "steps" (steps.map (Option.map fun z : ℤ => Json.num (z : ℚ)))
  ++ optField "notes" (notes.map (Option.map Json.str))

set_option maxHeartbeats 3200000

/-- C7: a habit tracker entry decodes successfully with any subset of the
optional metrics present, whenever each present numeric value is within
the range its Go type accepts (binary64 for the float metrics, int64 for
steps and the ids); an absent key and a JSON null both decode to the
absent state, and a present metric decodes to the present state holding
the wire value (through binary64 for the float fields, exactly for integer
and string fields). Concretely, an entry with "steps": 5000 and
"weight": 70.5 reports both present with exactly those values, and an
entry with "steps": null and no "weight" key reports both absent. -/
theorem tracking_optional_fields :
    (∀ (id : ℤ) (date : String) (clientID : ℤ) (createdAt updatedAt : String)
      (calories protein carbs fat weight sleep energy hunger stress : Option (Option ℚ))
      (steps : Option (Option ℤ)) (notes : Option (Option String)),
      -(2 ^ 63) ≤ id → id < 2 ^ 63 → -(2 ^ 63) ≤ clientID → clientID < 2 ^ 63 →
      (∀ x, calories = some (some x) → |toFloat64 x| ≤ maxFloat64) →
      (∀ x, protein = some (some x) → |toFloat64 x| ≤ maxFloat64) →
      (∀ x, carbs = some (some x) → |toFloat64 x| ≤ maxFloat64) →
      (∀ x, fat = some (some x) → |toFloat64 x| ≤ maxFloat64) →
      (∀ x, weight = some (some x) → |toFloat64 x| ≤ maxFloat64) →
      (∀ x, sleep = some (some x) → |toFloat64 x| ≤ maxFloat64) →
      (∀ x, energy = some (some x) → |toFloat64 x| ≤ maxFloat64) →
      (∀ x, hunger = some (some x) → |toFloat64 x| ≤ maxFloat64) →
      (∀ x, stress = some (some x) → |toFloat64 x| ≤ maxFloat64) →
      (∀ z, steps = some (some z) → -(2 ^ 63) ≤ z ∧ z < 2 ^ 63) →
      decodeHabitTrackerTracking (.obj (mkTrackingObj id date clientID createdAt updatedAt
          calories protein carbs fat weight sleep energy hunger stress steps notes)) =
        .ok ⟨id, calories.join.map toFloat64, date, protein.join.map toFloat64,
             carbs.join.map toFloat64, fat.join.map toFloat64, weight.join.map toFloat64,
             sleep.join.map toFloat64, steps.join, energy.join.map toFloat64,
             hunger.join.map toFloat64, stress.join.map toFloat64, notes.join,
             clientID, createdAt, updatedAt⟩) ∧
    (decodeHabitTrackerTracking (.obj
        [("id", .num 1), ("calories", .null), ("date", .str "Feb 1, 2026"),
         ("weight", .num (141 / 2)), ("steps", .num 5000), ("client_id", .num 7),
         ("created_at", .str "c"), ("updated_at", .str "u")]) =
      .ok ⟨1, none, "Feb 1, 2026", none, none, none, some (141 / 2), none, some 5000,
           none, none, none, none, 7, "c", "u"⟩) ∧
    (decodeHabitTrackerTracking (.obj
        [("id", .num 2), ("date", .str "d"), ("steps", .null), ("client_id", .num 7),
         ("created_at", .str "c"), ("updated_at", .str "u")]) =
      .ok ⟨2, none, "d", none, none, none, none, none, none, none, none, none, none,
           7, "c", "u"⟩) := by
  refine ⟨fun id date clientID createdAt updatedAt calories protein carbs fat weight
      sleep energy hunger stress steps notes hid1 hid2 hci1 hci2 hcal hpro hcar hfat
      hw hsl hen hhu hsr hst => ?_,
    by with_unfolding_all rfl, by with_unfolding_all rfl⟩
  simp [decodeHabitTrackerTracking, mkTrackingObj, objLookup, List.reverse_append,
    optField_reverse, lookup_append, lookup_optField_self, lookup_optField_ne,
    List.lookup, Option.or_none, Option.none_or, decOptFloat_optJson _ hcal,
    decOptFloat_optJson _ hpro, decOptFloat_optJson _ hcar, decOptFloat_optJson _ hfat,
    decOptFloat_optJson _ hw, decOptFloat_optJson _ hsl, decOptFloat_optJson _ hen,
    decOptFloat_optJson _ hhu, decOptFloat_optJson _ hsr, decOptInt_optJson _ hst,
    decOptStr_optJson, decInt_intCast id hid1 hid2, decInt_intCast clientID hci1 hci2,
    decStr]
  rfl

/-- C7 witness: the general decode at a concrete entry — weight 70.5
present, sleep null, steps 5000 present, notes present, every other
optional metric absent. -/
theorem tracking_optional_fields_witness :
    decodeHabitTrackerTracking (.obj (mkTrackingObj 1 "d" 7 "c" "u"
        none none none none (some (some (141 / 2))) (some none) none none none
        (some (some 5000)) (some (some "n")))) =
      .ok ⟨1, none, "d", none, none, none, some (toFloat64 (141 / 2)), none, some 5000,
           none, none, none, some "n", 7, "c", "u"⟩ :=
  tracking_optional_fields.1 1 "d" 7 "c" "u" none none none none
    (some (some (141 / 2))) (some none) none none none (some (some 5000))
    (some (some "n")) (by norm_num) (by norm_num) (by norm_num) (by norm_num)
    (fun x h => Option.noConfusion h) (fun x h => Option.noConfusion h)
    (fun x h => Option.noConfusion h) (fun x h => Option.noConfusion h)
    (by intro x h; injection h with h1; injection h1 with h2; rw [← h2]
        with_unfolding_all decide)
    (by intro x h; injection h with h1; exact Option.noConfusion h1)
    (fun x h => Option.noConfusion h) (fun x h => Option.noConfusion h)
    (fun x h => Option.noConfusion h)
    (by intro z h; injection h with h1; injection h1 with h2; rw [← h2]; norm_num)
